import Mathlib

/-!
# AnyDesk command line controller (anydesk_cli.go, main.go)

A shallow embedding of the controller that drives the AnyDesk binary:
the exit code table (`convertError`), the stdout sentinel check
(`convertInfoError`), the option application of `Connect` (`applyToCmd`),
the binary locator (`findAnyDesk`), the controller operations
(`run`, `SetPassword`, `Connect`, `GetAlias`, `GetID`, `GetStatus`, `Version`)
and the keyword dispatch of `ProcessCommand`.

Conventions of the embedding.

* A Go `string` is a Lean `String`, read as its sequence of code points
  (well-formed UTF-8 text); library functions on strings are written over
  `String.data`.
* A Go `int` is an `Int`.
* A Go `error` is an `Option GoError`, `none` being `nil`.
* The operating system is explicit: the search path, the test for an
  executable file and the outcome of a launched process are fields of `Env`.
* Library functions (`strings.TrimSpace`, `strings.Fields`, `filepath.Join`,
  `exec.LookPath`, `exec.Cmd.Run`) are modelled after their documented
  behaviour on Unix. `exec.LookPath` changed with Go 1.19, which reports a
  bare name found relative to the current directory with `exec.ErrDot`; the
  field `Env.errDot` selects the release, and statements hold for both unless
  they fix it.
-/

namespace AnyDesk

/-! ## Errors -/

/-- Why an `*exec.Error` was returned by a path lookup. -/
inductive ExecErrKind
  /-- Go `exec.ErrNotFound`. -/
  | notFound
  /-- The file exists but is not an executable file, or cannot be inspected. -/
  | notExecutable
  /-- Go `exec.ErrDot`: the match is relative to the current directory. -/
  | dot
  deriving DecidableEq, Repr

/-- The `error` values the controller can return. -/
inductive GoError
  /-- Go `errors.New(msg)` of the exit code table. -/
  | text (msg : String)
  /-- The package variable `ErrServiceNotRunning`. -/
  | serviceNotRunning
  /-- Go `&exec.Error{Name: name, Err: kind}`. -/
  | exec (name : String) (kind : ExecErrKind)
  /-- Go `*exec.ExitError` of a process that ran and did not succeed. -/
  | exitError (code : Int)
  /-- The error of `cmd.Run` for a process that could not be started. -/
  | startError (path : String)
  deriving DecidableEq, Repr

/-- Go `errors.New`. -/
def errorsNew (msg : String) : GoError := GoError.text msg

/-- Go `var ErrServiceNotRunning = errors.New("service not running")`: one fixed
error value, compared by identity. -/
def ErrServiceNotRunning : GoError := GoError.serviceNotRunning

/-! ## Exit code table -/

/-- Go `convertError`: the switch over the exit codes documented by the vendor. -/
def convertError (exitCode : Int) : Option GoError :=
  if exitCode = 1000 then
    some (errorsNew "AnyDesk could not run at all because ntdll was not found.")
  else if exitCode = 1001 then
    some (errorsNew "AnyDesk could not run because kernel32 was not found.")
  else if exitCode = 7000 then
    some (errorsNew "Path initialization failed. See windows event log for details.")
  else if exitCode = 7001 then
    some (errorsNew "Signature check failed.")
  else if exitCode = 7002 then
    some (errorsNew "Unrecognized command line parameter.")
  else if exitCode = 7003 then
    some (errorsNew "Could not start process (already started).")
  else if exitCode = 8000 then
    some (errorsNew "The requested operation requires elevation (start as admin).")
  else if exitCode = 9000 then
    some (errorsNew "Generic exception occured in application. See trace.")
  else if exitCode = 9001 then
    some (errorsNew
      "The process terminated itself because of a severe error condition. See trace.")
  else if exitCode = 9002 then
    some (errorsNew "The process encountered a system exception. Please contact support.")
  else if exitCode = 9004 then
    some (errorsNew "Error while writing the requested information to stdout.")
  else if exitCode = 9005 then
    some (errorsNew "Error while reading required information from stdin.")
  else if exitCode = 9006 then
    some (errorsNew "The password to be set is too short.")
  else if exitCode = 9007 then
    some (errorsNew "Error while registering licence. See trace for for information.")
  else if exitCode = 9010 then
    some (errorsNew
      "Could not perform the requested operation because the AnyDesk service was not running.")
  else if exitCode = 0xad1000 then
    some (errorsNew "Could not remove an older client's executable.")
  else if exitCode = 0xad1001 then
    some (errorsNew "Could not stop an older client's service.")
  else if exitCode = 0xad1002 then
    some (errorsNew "Could not terminate an older client's processes.")
  else if exitCode = 0xad1003 then
    some (errorsNew
      "Could not install the service. May happen in case a Windows Control Panel is open.")
  else if exitCode = 0xad1004 then
    some (errorsNew "An unexpected error occurred.")
  else if exitCode = 0xad1005 then
    some (errorsNew "Received invalid installation parameters.")
  else if exitCode = 0xad1006 then
    some (errorsNew "Could not install custom client (installation set to disallowed). ")
  else
    none

/-- The codes that have a case in the switch of `convertError`. -/
def tableCodes : List Int :=
  [1000, 1001, 7000, 7001, 7002, 7003, 8000, 9000, 9001, 9002, 9004, 9005, 9006, 9007, 9010,
   0xad1000, 0xad1001, 0xad1002, 0xad1003, 0xad1004, 0xad1005, 0xad1006]

/-! ## Strings -/

/-- Go `unicode.IsSpace`: the Latin-1 spaces `\t \n \v \f \r`, space, U+0085 and
U+00A0, and beyond Latin-1 the code points with the White_Space property. -/
def IsSpace (r : Char) : Bool :=
  let n := r.toNat
  if n ≤ 0xFF then
    n = 0x09 || n = 0x0A || n = 0x0B || n = 0x0C || n = 0x0D || n = 0x20 || n = 0x85
      || n = 0xA0
  else
    n = 0x1680 || (0x2000 ≤ n && n ≤ 0x200A) || n = 0x2028 || n = 0x2029 || n = 0x202F
      || n = 0x205F || n = 0x3000

/-- Go `strings.TrimSpace`: the string without its leading and its trailing
white space, `TrimRightFunc(TrimLeftFunc(s, IsSpace), IsSpace)`. -/
def TrimSpace (s : String) : String :=
  ⟨(s.data.dropWhile IsSpace).rdropWhile IsSpace⟩

/-- A string made of white space only (the empty string included). -/
def allSpace (s : String) : Prop := ∀ c ∈ s.data, IsSpace c = true

instance (s : String) : Decidable (allSpace s) := by
  unfold allSpace; infer_instance

/-! ## Stdout sentinel -/

/-- An `io.Reader` as `ioutil.ReadAll` sees it: the bytes it delivers and
whether reading ends in an error. -/
structure Reader where
  content : String
  fails : Bool

/-- A `*bytes.Buffer` holding `s`: reading it never fails. -/
def bufferReader (s : String) : Reader := { content := s, fails := false }

/-- Go `ioutil.ReadAll`. -/
def ReadAll (r : Reader) : String × Option GoError :=
  (r.content, if r.fails then some (GoError.text "read error") else none)

/-- Go `convertInfoError`: the sentinel check on the output of an info query. -/
def convertInfoError (output : Reader) : Option GoError :=
  let (bytes, err) := ReadAll output
  if err = none then
    if TrimSpace bytes = "SERVICE_NOT_RUNNING" then
      some ErrServiceNotRunning
    else
      none
  else
    none

/-! ## Auxiliary notions for the proofs -/

/-- The trimming of `TrimSpace` on the code points of a string. -/
def trimList (l : List Char) : List Char :=
  (l.dropWhile IsSpace).rdropWhile IsSpace

/-- The number of characters of a text that are not white space. -/
def inkCount (l : List Char) : Nat := l.countP (fun c => !IsSpace c)

/-! ## Commands and processes -/

/-- The fields of `exec.Cmd` the controller sets. `Args = none` is the nil
slice, `Stdin = none` the nil reader, and `Stdout` tells whether the output is
captured in a buffer (`false`: `Stdout` is nil and the output is discarded).
`Stderr` and the window attribute of `makeProcessInvisible` do not reach any
result and are left out. -/
structure Cmd where
  Path : String
  Args : Option (List String)
  Stdin : Option String
  Stdout : Bool
  deriving DecidableEq, Repr

/-- Go `exec.Command(name, arg...)`: the argument vector starts with the program
name. Whether a bare `name` can be found is decided when the process is
launched, see `Env.proc`. -/
def execCommand (name : String) (arg : List String) : Cmd :=
  { Path := name, Args := some (name :: arg), Stdin := none, Stdout := false }

/-- Go's `append(args, x)` on a slice that may be nil. -/
def goAppend (args : Option (List String)) (x : String) : Option (List String) :=
  some (args.getD [] ++ [x])

/-- What launching a command leads to. -/
inductive ProcResult
  /-- The process could not be started. -/
  | startFailed
  /-- The process ran and ended with `ProcessState.ExitCode() = code` (-1 when
  it was ended by a signal), having written `stdout`. -/
  | exited (code : Int) (stdout : String)
  deriving DecidableEq, Repr

/-- The operating system as the controller meets it. -/
structure Env where
  /-- The package variable `anydeskBinaryName`. -/
  anydeskBinaryName : String
  /-- The package variable `anydeskBinaryDirectoryPaths`. -/
  anydeskBinaryDirectoryPaths : List String
  /-- Go `filepath.SplitList(os.Getenv("PATH"))`. -/
  pathList : List String
  /-- The test `findExecutable` of `os/exec`: the path names a file that is
  not a directory and has an execute permission bit. -/
  isExecutable : String → Bool
  /-- Release of the library: `true` for Go 1.19 and later, where a bare name
  found relative to the current directory is returned with `exec.ErrDot`;
  `false` for the earlier releases, where it is returned without error. -/
  errDot : Bool
  /-- The outcome of launching a command. -/
  proc : Cmd → ProcResult

/-- What `cmd.Run()` leaves behind. -/
structure RunResult where
  /-- The error returned by `Run`. -/
  err : Option GoError
  /-- Go `cmd.ProcessState.ExitCode()`, which is -1 on a nil `ProcessState`. -/
  exitCode : Int
  /-- The content of the buffer behind `cmd.Stdout`. -/
  stdout : String
  deriving DecidableEq, Repr

/-- Go `cmd.Run()`: nil for a process that exits with code 0, an
`*exec.ExitError` for one that ends otherwise, another error for one that did
not start. -/
def Run (env : Env) (cmd : Cmd) : RunResult :=
  match env.proc cmd with
  | .startFailed => { err := some (GoError.startError cmd.Path), exitCode := -1, stdout := "" }
  | .exited code out =>
    { err := if code = 0 then none else some (GoError.exitError code)
      exitCode := code
      stdout := if cmd.Stdout then out else "" }

/-! ## Connect options -/

/-- Go `AnydeskConnectOptions`. -/
structure AnydeskConnectOptions where
  Password : String
  Fullscreen : Bool
  FileTransfer : Bool
  Plain : Bool
  deriving DecidableEq, Repr

/-- Go `(*AnydeskConnectOptions).applyToCmd`. -/
def AnydeskConnectOptions.applyToCmd (opts : AnydeskConnectOptions) (cmd : Cmd) : Cmd :=
  let cmd := if cmd.Args = none then { cmd with Args := some [] } else cmd
  let cmd :=
    if opts.Password.length > 0 then
      { cmd with Args := goAppend cmd.Args "--with-password", Stdin := some opts.Password }
    else cmd
  let cmd :=
    if opts.Fullscreen then { cmd with Args := goAppend cmd.Args "--fullscreen" } else cmd
  let cmd :=
    if opts.FileTransfer then { cmd with Args := goAppend cmd.Args "--file-transfer" } else cmd
  let cmd :=
    if opts.Plain then { cmd with Args := goAppend cmd.Args "--plain" } else cmd
  cmd

/-! ## Paths -/

/-- Go `strings.Split(path, "/")` on the code points of a path. -/
def splitSlash : List Char → List (List Char)
  | [] => [[]]
  | c :: cs =>
    if c = '/' then [] :: splitSlash cs
    else
      match splitSlash cs with
      | [] => [[c]]
      | w :: ws => (c :: w) :: ws

/-- One path element of `filepath.Clean`; `kept` holds the elements kept so
far, the last one first. An empty element and `.` are dropped; `..` removes
the element before it, is dropped at the root, and is kept at the start of a
relative path. -/
def cleanStep (rooted : Bool) (kept : List (List Char)) (elem : List Char) :
    List (List Char) :=
  if elem = [] ∨ elem = ['.'] then kept
  else if elem = ['.', '.'] then
    match kept with
    | top :: rest => if top = ['.', '.'] then elem :: kept else rest
    | [] => if rooted then [] else [elem]
  else elem :: kept

/-- Go `filepath.Clean` on Unix. -/
def Clean (path : String) : String :=
  if path = "" then "."
  else
    let rooted : Bool := path.data.head? = some '/'
    let kept := ((splitSlash path.data).foldl (cleanStep rooted) []).reverse
    let body : String := ⟨['/'].intercalate kept⟩
    if rooted then "/" ++ body
    else if kept = [] then "."
    else body

/-- Go `filepath.Join(dir, file)` on Unix: the elements from the first non-empty
one on, joined by a slash and cleaned. -/
def Join (dir file : String) : String :=
  if dir ≠ "" then Clean (dir ++ "/" ++ file)
  else if file ≠ "" then Clean file
  else ""

/-- Go `filepath.IsAbs` on Unix. -/
def IsAbs (path : String) : Bool := path.data.head? = some '/'

/-- Go `strings.Contains(file, "/")`. -/
def containsSlash (file : String) : Bool := file.data.contains '/'

/-- The loop of `exec.LookPath` over the entries of the search path, for a
file name without a slash. -/
def lookPathLoop (env : Env) (file : String) : List String → String × Option GoError
  | [] => ("", some (GoError.exec file ExecErrKind.notFound))
  | dir :: dirs =>
    let dir := if dir = "" then "." else dir
    let path := Join dir file
    if env.isExecutable path then
      if env.errDot ∧ ¬ IsAbs path then (path, some (GoError.exec file ExecErrKind.dot))
      else (path, none)
    else lookPathLoop env file dirs

/-- Go `exec.LookPath` on Unix: a name with a slash is tried as it is and never
searched for; a bare name is searched for along the search path. -/
def LookPath (env : Env) (file : String) : String × Option GoError :=
  if containsSlash file then
    if env.isExecutable file then (file, none)
    else ("", some (GoError.exec file ExecErrKind.notExecutable))
  else lookPathLoop env file env.pathList

/-! ## Binary locator -/

/-- The loop of `findAnyDesk` over the directories, and the not-found error
built after it. -/
def findAnyDeskLoop (env : Env) : List String → String × Option GoError
  | [] =>
    (env.anydeskBinaryName, some (GoError.exec env.anydeskBinaryName ExecErrKind.notFound))
  | dir :: dirs =>
    let dir := if dir = "" then "." else dir
    let path := Join dir env.anydeskBinaryName
    match LookPath env path with
    | (path, none) => (path, none)
    | (_, some _) => findAnyDeskLoop env dirs

/-- Go `findAnyDesk`. -/
def findAnyDesk (env : Env) : String × Option GoError :=
  findAnyDeskLoop env (env.pathList ++ env.anydeskBinaryDirectoryPaths)

/-! ## Controller -/

/-- Go `AnydeskCommandLineInterface`. -/
structure AnydeskCommandLineInterface where
  path : String
  deriving DecidableEq, Repr

/-- Go `NewAnydeskCommandLineInterface`. -/
def NewAnydeskCommandLineInterface (path : String) : AnydeskCommandLineInterface :=
  { path := path }

/-- Go `(*AnydeskCommandLineInterface).cmd`: the command for the configured
path, or for the binary that `findAnyDesk` locates. -/
def AnydeskCommandLineInterface.cmd (cli : AnydeskCommandLineInterface) (env : Env)
    (args : List String) : Except GoError Cmd :=
  if cli.path.length > 0 then
    .ok { execCommand cli.path args with Stdout := false, Stdin := none }
  else
    match findAnyDesk env with
    | (_, some err) => .error err
    | (adPath, none) => .ok { execCommand adPath args with Stdout := false, Stdin := none }

/-- The command that `run` hands to `cmd.Run()`: no stdin, stdout captured. -/
def AnydeskCommandLineInterface.runCmd (cli : AnydeskCommandLineInterface) (env : Env)
    (args : List String) : Except GoError Cmd :=
  match cli.cmd env args with
  | .error err => .error err
  | .ok cmd => .ok { cmd with Stdin := none, Stdout := true }

/-- Go `(*AnydeskCommandLineInterface).run`: the content of the stdout buffer
and the error. -/
def AnydeskCommandLineInterface.run (cli : AnydeskCommandLineInterface) (env : Env)
    (args : List String) : String × Option GoError :=
  match cli.runCmd env args with
  | .error err => ("", some err)
  | .ok cmd =>
    let res := Run env cmd
    match res.err with
    | some err =>
      match convertError res.exitCode with
      | some adErr => (res.stdout, some adErr)
      | none => (res.stdout, some err)
    | none => (res.stdout, none)

/-- The command that `SetPassword` hands to `cmd.Run()`. -/
def AnydeskCommandLineInterface.SetPasswordCmd (cli : AnydeskCommandLineInterface)
    (env : Env) (pw : String) : Except GoError Cmd :=
  match cli.cmd env ["--set-password"] with
  | .error err => .error err
  | .ok cmd => .ok { cmd with Stdin := some pw }

/-- Go `(*AnydeskCommandLineInterface).SetPassword`. -/
def AnydeskCommandLineInterface.SetPassword (cli : AnydeskCommandLineInterface)
    (env : Env) (pw : String) : Option GoError :=
  match cli.SetPasswordCmd env pw with
  | .error err => some err
  | .ok cmd =>
    let res := Run env cmd
    match res.err with
    | some err =>
      match convertError res.exitCode with
      | some adErr => some adErr
      | none => some err
    | none => none

/-- The command that `Connect` hands to `cmd.Run()`; `opt = none` is the nil
pointer. -/
def AnydeskCommandLineInterface.ConnectCmd (cli : AnydeskCommandLineInterface)
    (env : Env) (ref : String) (opt : Option AnydeskConnectOptions) : Except GoError Cmd :=
  match cli.cmd env [ref] with
  | .error err => .error err
  | .ok cmd =>
    match opt with
    | some opt => .ok (opt.applyToCmd cmd)
    | none => .ok cmd

/-- Go `(*AnydeskCommandLineInterface).Connect`. The function has no result; the
model returns the value of its local `err` at the return, which the caller
never sees. -/
def AnydeskCommandLineInterface.Connect (cli : AnydeskCommandLineInterface)
    (env : Env) (ref : String) (opt : Option AnydeskConnectOptions) : Option GoError :=
  match cli.ConnectCmd env ref opt with
  | .error err => some err
  | .ok cmd =>
    let res := Run env cmd
    match res.err with
    | some err =>
      match convertError res.exitCode with
      | some adErr => some adErr
      | none => some err
    | none => none

/-- Go `(*AnydeskCommandLineInterface).RemovePassword`. -/
def AnydeskCommandLineInterface.RemovePassword (cli : AnydeskCommandLineInterface)
    (env : Env) : Option GoError :=
  match cli.cmd env ["--remove-password"] with
  | .error err => some err
  | .ok cmd => (Run env cmd).err

/-- Go `(*AnydeskCommandLineInterface).GetAlias`. -/
def AnydeskCommandLineInterface.GetAlias (cli : AnydeskCommandLineInterface) (env : Env) :
    String × Option GoError :=
  match cli.run env ["--get-alias"] with
  | (output, some err) =>
    match convertInfoError (bufferReader output) with
    | some adErr => ("", some adErr)
    | none => ("", some err)
  | (output, none) => (TrimSpace output, none)

/-- Go `(*AnydeskCommandLineInterface).GetID`. -/
def AnydeskCommandLineInterface.GetID (cli : AnydeskCommandLineInterface) (env : Env) :
    String × Option GoError :=
  match cli.run env ["--get-id"] with
  | (output, some err) =>
    match convertInfoError (bufferReader output) with
    | some adErr => ("", some adErr)
    | none => ("", some err)
  | (output, none) => (TrimSpace output, none)

/-- Go `(*AnydeskCommandLineInterface).GetStatus`. -/
def AnydeskCommandLineInterface.GetStatus (cli : AnydeskCommandLineInterface) (env : Env) :
    String × Option GoError :=
  match cli.run env ["--get-status"] with
  | (output, some err) =>
    match convertInfoError (bufferReader output) with
    | some adErr => ("", some adErr)
    | none => ("", some err)
  | (output, none) => (TrimSpace output, none)

/-- Go `(*AnydeskCommandLineInterface).Version`. -/
def AnydeskCommandLineInterface.Version (cli : AnydeskCommandLineInterface) (env : Env) :
    String × Option GoError :=
  match cli.run env ["--version"] with
  | (output, some err) =>
    match convertInfoError (bufferReader output) with
    | some adErr => ("", some adErr)
    | none => ("", some err)
  | (output, none) => (TrimSpace output, none)

/-! ## Command dispatch -/

/-- The loop of `strings.Fields`: `cur` is the field being read, its last
character first. -/
def fieldsAux : List Char → List Char → List (List Char)
  | cur, [] => if cur = [] then [] else [cur.reverse]
  | cur, c :: cs =>
    if IsSpace c then
      if cur = [] then fieldsAux [] cs else cur.reverse :: fieldsAux [] cs
    else fieldsAux (c :: cur) cs

/-- Go `strings.Fields`: the maximal runs of characters that are not white
space. -/
def Fields (s : String) : List String :=
  (fieldsAux [] s.data).map String.mk

/-- A run-time panic of the Go program. -/
inductive Panic
  /-- An index expression `xs[i]` with `i` outside `0 ≤ i < len`. -/
  | indexOutOfRange (i len : Nat)
  deriving DecidableEq, Repr

/-- The `handled` result of `ts3plugin.ProcessCommand`. `ToLower` is
`strings.ToLower`, whose Unicode case tables are not part of the program and
are taken as a parameter. The bodies of the cases print messages and call the
controller; none of them assigns `handled`, so only the `default` case
clears it. -/
def ProcessCommand (ToLower : String → String) (command : String) : Except Panic Bool :=
  let fields := Fields command
  match fields with
  | [] => .error (Panic.indexOutOfRange 0 0)
  | command :: _ =>
    let handled := true
    match ToLower command with
    | "invite" => .ok handled
    | "unshare" => .ok handled
    | "uninvite" => .ok handled
    | "remove-password" => .ok handled
    | "version" => .ok handled
    | _ => .ok false

/-! ## Notions of the statements -/

/-- The option flags of a connect, in the order of `applyToCmd`, each kept
when its option is set. -/
def optionFlags (o : AnydeskConnectOptions) : List String :=
  (if o.Password ≠ "" then ["--with-password"] else [])
    ++ (if o.Fullscreen then ["--fullscreen"] else [])
    ++ (if o.FileTransfer then ["--file-transfer"] else [])
    ++ (if o.Plain then ["--plain"] else [])

/-- A mock process: every command that is launched ends with the exit code
`code` after writing `stdout`. Nothing is on the search path. -/
def mockEnv (code : Int) (stdout : String) : Env :=
  { anydeskBinaryName := "anydesk"
    anydeskBinaryDirectoryPaths := []
    pathList := []
    isExecutable := fun _ => false
    errDot := false
    proc := fun _ => ProcResult.exited code stdout }

/-- A controller with a configured binary path. -/
def mockCli : AnydeskCommandLineInterface :=
  NewAnydeskCommandLineInterface "/usr/bin/anydesk"

/-- The common shape of the four information queries on the result of `run`. -/
def queryResult (r : String × Option GoError) : String × Option GoError :=
  match r with
  | (output, some err) =>
    match convertInfoError (bufferReader output) with
    | some adErr => ("", some adErr)
    | none => ("", some err)
  | (output, none) => (TrimSpace output, none)

/-- The directories `findAnyDesk` goes through: the entries of the search
path in order, then the install directories in order. -/
def searchDirs (env : Env) : List String :=
  env.pathList ++ env.anydeskBinaryDirectoryPaths

/-- The candidate of a directory: the directory, or `.` for the empty entry,
joined with the binary name. -/
def candidate (env : Env) (dir : String) : String :=
  Join (if dir = "" then "." else dir) env.anydeskBinaryName

/-- The candidate of the first directory, in the order of `searchDirs`, whose
candidate is an executable file. -/
def firstExecutable (env : Env) : Option String :=
  ((searchDirs env).map (candidate env)).find? env.isExecutable

/-- The not-found error of `findAnyDesk`, naming the binary. -/
def notFoundError (env : Env) : GoError :=
  GoError.exec env.anydeskBinaryName ExecErrKind.notFound

/-- An environment for the locator: the binary name `anydesk`, a search path,
install directories, and the set of the executable files. -/
def locatorEnv (pathList installDirs executables : List String) (errDot : Bool) : Env :=
  { anydeskBinaryName := "anydesk"
    anydeskBinaryDirectoryPaths := installDirs
    pathList := pathList
    isExecutable := fun p => executables.contains p
    errDot := errDot
    proc := fun _ => ProcResult.startFailed }

/-- The keywords that `ProcessCommand` handles. -/
def handledKeywords : List String :=
  ["invite", "unshare", "uninvite", "remove-password", "version"]

/-- A scripted process: a command `[program, flag]` ends with the exit code
and the stdout that `script` gives for its flag, and any other command cannot
be started. The queries of one controller can so end differently. -/
def scriptedEnv (script : List (String × Int × String)) : Env :=
  { anydeskBinaryName := "anydesk"
    anydeskBinaryDirectoryPaths := []
    pathList := []
    isExecutable := fun _ => false
    errDot := false
    proc := fun c =>
      match c.Args with
      | some [_, flag] =>
        match script.lookup flag with
        | some (code, out) => ProcResult.exited code out
        | none => ProcResult.startFailed
      | _ => ProcResult.startFailed }

/-! # Theorems -/

/-! ## Lemmas on trimming -/

theorem TrimSpace_data (s : String) : (TrimSpace s).data = trimList s.data := rfl

theorem rdropWhile_append_rtakeWhile (p : Char → Bool) (l : List Char) :
    l.rdropWhile p ++ l.rtakeWhile p = l := by
  unfold List.rdropWhile List.rtakeWhile
  rw [← List.reverse_append, List.takeWhile_append_dropWhile, List.reverse_reverse]

/-- Trimming only removes white space at the two ends. -/
theorem trimList_decomp (l : List Char) :
    ∃ pre post : List Char, (∀ c ∈ pre, IsSpace c = true) ∧ (∀ c ∈ post, IsSpace c = true) ∧
      l = pre ++ trimList l ++ post := by
  refine ⟨l.takeWhile IsSpace, (l.dropWhile IsSpace).rtakeWhile IsSpace, ?_, ?_, ?_⟩
  · intro c hc
    exact List.mem_takeWhile_imp hc
  · intro c hc
    exact List.mem_rtakeWhile_imp hc
  · unfold trimList
    rw [List.append_assoc, rdropWhile_append_rtakeWhile, List.takeWhile_append_dropWhile]

/-- What is left after trimming starts and ends with a character that is not
white space. -/
theorem trimList_ends (l : List Char) :
    (∀ h : trimList l ≠ [], IsSpace ((trimList l).head h) = false) ∧
    (∀ h : trimList l ≠ [], IsSpace ((trimList l).getLast h) = false) := by
  constructor
  · intro h
    have hpre : trimList l <+: l.dropWhile IsSpace := List.rdropWhile_prefix IsSpace _
    obtain ⟨t, ht⟩ := hpre
    have hd : l.dropWhile IsSpace ≠ [] := by
      intro h0
      rw [h0] at ht
      exact h (List.append_eq_nil.mp ht).1
    have h1 : (l.dropWhile IsSpace).head hd = (trimList l).head h := by
      have : (trimList l ++ t).head (by simp [h]) = (trimList l).head h :=
        List.head_append_of_ne_nil h
      rw [← this]
      congr 1
      exact ht.symm
    rw [← h1]
    exact List.head_dropWhile_not IsSpace l hd
  · intro h
    have := List.rdropWhile_last_not IsSpace (l.dropWhile IsSpace) h
    simpa using this

/-- A text without white space at its two ends, wrapped in white space, is
what trimming gives back. -/
theorem trimList_wrap (pre post m : List Char) (a b : Char) (m₁ m₂ : List Char)
    (hpre : ∀ c ∈ pre, IsSpace c = true) (hpost : ∀ c ∈ post, IsSpace c = true)
    (hhead : m = a :: m₁) (hlast : m = m₂ ++ [b])
    (ha : IsSpace a = false) (hb : IsSpace b = false) :
    trimList (pre ++ m ++ post) = m := by
  unfold trimList
  rw [List.append_assoc, List.dropWhile_append_of_pos hpre]
  have h1 : (m ++ post).dropWhile IsSpace = m ++ post := by
    rw [hhead, List.cons_append, List.dropWhile_cons_of_neg (by simp [ha])]
  rw [h1]
  unfold List.rdropWhile
  rw [List.reverse_append, List.dropWhile_append_of_pos (by simpa using hpost)]
  rw [hlast, List.reverse_append, List.reverse_singleton, List.singleton_append,
    List.dropWhile_cons_of_neg (by simp [hb])]
  simp

theorem inkCount_append (l₁ l₂ : List Char) :
    inkCount (l₁ ++ l₂) = inkCount l₁ + inkCount l₂ := by
  simp [inkCount, List.countP_append]

theorem inkCount_eq_zero (l : List Char) :
    inkCount l = 0 ↔ ∀ c ∈ l, IsSpace c = true := by
  simp [inkCount, List.countP_eq_zero]

/-! ## C1: the exit code table -/

theorem convertError_of_not_mem (c : Int) (h : c ∉ tableCodes) : convertError c = none := by
  simp only [tableCodes, List.mem_cons, List.mem_singleton, List.not_mem_nil, or_false,
    not_or] at h
  obtain ⟨h1, h2, h3, h4, h5, h6, h7, h8, h9, h10, h11, h12, h13, h14, h15, h16, h17, h18,
    h19, h20, h21, h22⟩ := h
  unfold convertError
  rw [if_neg h1, if_neg h2, if_neg h3, if_neg h4, if_neg h5, if_neg h6, if_neg h7, if_neg h8,
    if_neg h9, if_neg h10, if_neg h11, if_neg h12, if_neg h13, if_neg h14, if_neg h15,
    if_neg h16, if_neg h17, if_neg h18, if_neg h19, if_neg h20, if_neg h21, if_neg h22]

theorem convertError_of_mem (c : Int) (h : c ∈ tableCodes) :
    ∃ msg, convertError c = some (errorsNew msg) := by
  simp only [tableCodes, List.mem_cons, List.mem_singleton, List.not_mem_nil, or_false] at h
  rcases h with h | h | h | h | h | h | h | h | h | h | h | h | h | h | h | h | h | h | h | h
    | h | h <;> subst h <;> exact ⟨_, rfl⟩

theorem convertError_eq_none_iff (c : Int) : convertError c = none ↔ c ∉ tableCodes := by
  constructor
  · intro h hm
    obtain ⟨msg, hmsg⟩ := convertError_of_mem c hm
    rw [h] at hmsg
    cases hmsg
  · exact convertError_of_not_mem c

/-- C1. `convertError` is a total lookup over the integers: each of the 22
codes of the table gives the error with exactly the description of its case,
and a code gives no error exactly when it is not one of the 22, so 0, the -1
of a process that never started and every negative code give no error. -/
theorem convertError_total_lookup (c : Int) :
    convertError 1000
        = some (errorsNew "AnyDesk could not run at all because ntdll was not found.")
    ∧ convertError 1001
        = some (errorsNew "AnyDesk could not run because kernel32 was not found.")
    ∧ convertError 7000
        = some (errorsNew "Path initialization failed. See windows event log for details.")
    ∧ convertError 7001 = some (errorsNew "Signature check failed.")
    ∧ convertError 7002 = some (errorsNew "Unrecognized command line parameter.")
    ∧ convertError 7003 = some (errorsNew "Could not start process (already started).")
    ∧ convertError 8000
        = some (errorsNew "The requested operation requires elevation (start as admin).")
    ∧ convertError 9000
        = some (errorsNew "Generic exception occured in application. See trace.")
    ∧ convertError 9001
        = some (errorsNew
            "The process terminated itself because of a severe error condition. See trace.")
    ∧ convertError 9002
        = some (errorsNew "The process encountered a system exception. Please contact support.")
    ∧ convertError 9004
        = some (errorsNew "Error while writing the requested information to stdout.")
    ∧ convertError 9005
        = some (errorsNew "Error while reading required information from stdin.")
    ∧ convertError 9006 = some (errorsNew "The password to be set is too short.")
    ∧ convertError 9007
        = some (errorsNew "Error while registering licence. See trace for for information.")
    ∧ convertError 9010
        = some (errorsNew
            "Could not perform the requested operation because the AnyDesk service was not running.")
    ∧ convertError 0xad1000 = some (errorsNew "Could not remove an older client's executable.")
    ∧ convertError 0xad1001 = some (errorsNew "Could not stop an older client's service.")
    ∧ convertError 0xad1002
        = some (errorsNew "Could not terminate an older client's processes.")
    ∧ convertError 0xad1003
        = some (errorsNew
            "Could not install the service. May happen in case a Windows Control Panel is open.")
    ∧ convertError 0xad1004 = some (errorsNew "An unexpected error occurred.")
    ∧ convertError 0xad1005 = some (errorsNew "Received invalid installation parameters.")
    ∧ convertError 0xad1006
        = some (errorsNew "Could not install custom client (installation set to disallowed). ")
    ∧ tableCodes.length = 22
    ∧ (convertError c = none ↔ c ∉ tableCodes)
    ∧ (convertError c = none ∨ ∃ msg, convertError c = some (errorsNew msg))
    ∧ convertError 0 = none
    ∧ convertError (-1) = none
    ∧ (convertError c = none ∨ 1000 ≤ c) := by
  refine ⟨rfl, rfl, rfl, rfl, rfl, rfl, rfl, rfl, rfl, rfl, rfl, rfl, rfl, rfl, rfl, rfl, rfl,
    rfl, rfl, rfl, rfl, rfl, rfl, convertError_eq_none_iff c, ?_, rfl, rfl, ?_⟩
  · by_cases hm : c ∈ tableCodes
    · exact Or.inr (convertError_of_mem c hm)
    · exact Or.inl (convertError_of_not_mem c hm)
  · by_cases h : 1000 ≤ c
    · exact Or.inr h
    · left
      rw [convertError_eq_none_iff]
      unfold tableCodes
      simp only [List.mem_cons, List.mem_singleton, List.not_mem_nil, or_false, not_or]
      omega

/-! ## C2: the stdout sentinel -/

theorem convertInfoError_buffer (s : String) :
    convertInfoError (bufferReader s)
      = if TrimSpace s = "SERVICE_NOT_RUNNING" then some ErrServiceNotRunning else none := by
  simp [convertInfoError, ReadAll, bufferReader]

theorem TrimSpace_eq_sentinel_iff (s : String) :
    TrimSpace s = "SERVICE_NOT_RUNNING" ↔
      ∃ pre post : String, allSpace pre ∧ allSpace post ∧
        s = pre ++ "SERVICE_NOT_RUNNING" ++ post := by
  constructor
  · intro h
    obtain ⟨pre, post, hpre, hpost, hs⟩ := trimList_decomp s.data
    refine ⟨⟨pre⟩, ⟨post⟩, hpre, hpost, ?_⟩
    apply String.ext
    rw [hs, ← TrimSpace_data, h]
    simp [String.data_append]
  · rintro ⟨pre, post, hpre, hpost, rfl⟩
    apply String.ext
    rw [TrimSpace_data]
    simp only [String.data_append]
    exact trimList_wrap pre.data post.data "SERVICE_NOT_RUNNING".data 'S'
      'G' "ERVICE_NOT_RUNNING".data "SERVICE_NOT_RUNNIN".data hpre hpost rfl rfl
      (by decide) (by decide)

theorem TrimSpace_sentinel_extra (p q : String) (h : ¬ allSpace p ∨ ¬ allSpace q) :
    TrimSpace (p ++ "SERVICE_NOT_RUNNING" ++ q) ≠ "SERVICE_NOT_RUNNING" := by
  intro heq
  obtain ⟨pre, post, hpre, hpost, hs⟩ := (TrimSpace_eq_sentinel_iff _).mp heq
  have hd := congrArg (fun t : String => inkCount t.data) hs
  simp only [String.data_append, inkCount_append] at hd
  have h1 : inkCount pre.data = 0 := (inkCount_eq_zero _).mpr hpre
  have h2 : inkCount post.data = 0 := (inkCount_eq_zero _).mpr hpost
  have hp : inkCount p.data = 0 := by omega
  have hq : inkCount q.data = 0 := by omega
  rcases h with h | h
  · exact h ((inkCount_eq_zero _).mp hp)
  · exact h ((inkCount_eq_zero _).mp hq)

/-- C2. On a captured output `s`, `convertInfoError` returns
`ErrServiceNotRunning` exactly when `s` is the literal `SERVICE_NOT_RUNNING`
wrapped in white space only, that is when the trimmed `s` equals the literal,
and returns no error otherwise: so not for the literal with a character that
is not white space before or after it (`p`, `q`), not for the literal in
another case, and not for the empty output. -/
theorem convertInfoError_sentinel (s p q : String) (h : ¬ allSpace p ∨ ¬ allSpace q) :
    (convertInfoError (bufferReader s) = some ErrServiceNotRunning
        ↔ TrimSpace s = "SERVICE_NOT_RUNNING")
    ∧ (convertInfoError (bufferReader s) = some ErrServiceNotRunning
        ↔ ∃ pre post : String, allSpace pre ∧ allSpace post ∧
            s = pre ++ "SERVICE_NOT_RUNNING" ++ post)
    ∧ (convertInfoError (bufferReader s) = none ↔ TrimSpace s ≠ "SERVICE_NOT_RUNNING")
    ∧ convertInfoError (bufferReader (p ++ "SERVICE_NOT_RUNNING" ++ q)) = none
    ∧ convertInfoError (bufferReader "service_not_running") = none
    ∧ convertInfoError (bufferReader "Service_Not_Running") = none
    ∧ convertInfoError (bufferReader "") = none := by
  have h1 : convertInfoError (bufferReader s) = some ErrServiceNotRunning
      ↔ TrimSpace s = "SERVICE_NOT_RUNNING" := by
    rw [convertInfoError_buffer]
    split_ifs with hc <;> simp [hc]
  refine ⟨h1, h1.trans (TrimSpace_eq_sentinel_iff s), ?_, ?_, by decide, by decide, by decide⟩
  · rw [convertInfoError_buffer]
    split_ifs with hc <;> simp [hc]
  · rw [convertInfoError_buffer, if_neg (TrimSpace_sentinel_extra p q h)]

theorem convertInfoError_sentinel_witness :
    (¬ allSpace "x" ∨ ¬ allSpace "")
    ∧ convertInfoError (bufferReader " SERVICE_NOT_RUNNING\n") = some ErrServiceNotRunning
    ∧ convertInfoError (bufferReader ("x" ++ "SERVICE_NOT_RUNNING" ++ "")) = none :=
  have h : ¬ allSpace "x" ∨ ¬ allSpace "" := Or.inl (by decide)
  ⟨h, (convertInfoError_sentinel " SERVICE_NOT_RUNNING\n" "x" "" h).1.mpr (by decide),
    (convertInfoError_sentinel " SERVICE_NOT_RUNNING\n" "x" "" h).2.2.2.1⟩

/-! ## C3: the options of a connect -/

theorem length_pos_iff_ne_empty (s : String) : s.length > 0 ↔ s ≠ "" := by
  cases s with
  | mk l =>
    cases l with
    | nil => simp [String.length]
    | cons a t =>
      simp only [String.length, List.length_cons, gt_iff_lt, Nat.zero_lt_succ, true_iff]
      intro h
      have := congrArg String.data h
      simp at this

theorem applyToCmd_fields (cmd : Cmd) (o : AnydeskConnectOptions) :
    (o.applyToCmd cmd).Args = some (cmd.Args.getD [] ++ optionFlags o)
    ∧ (o.applyToCmd cmd).Stdin = (if o.Password ≠ "" then some o.Password else cmd.Stdin)
    ∧ (o.applyToCmd cmd).Path = cmd.Path
    ∧ (o.applyToCmd cmd).Stdout = cmd.Stdout := by
  obtain ⟨pw, fs, ft, pl⟩ := o
  obtain ⟨path, args, stdin, out⟩ := cmd
  have hpw := length_pos_iff_ne_empty pw
  by_cases h1 : pw = "" <;> cases fs <;> cases ft <;> cases pl <;> cases args <;>
    simp [AnydeskConnectOptions.applyToCmd, optionFlags, goAppend, h1, hpw]

/-- C3. `applyToCmd` appends to the arguments it finds exactly the flags
`--with-password`, `--fullscreen`, `--file-transfer`, `--plain`, in this
order, whose option is set, and sets stdin to the password when the password
is not empty, leaving it as it was otherwise; with no option set arguments and
stdin are unchanged; and `Connect("123456789", {Password: "x"})` runs the
program with the arguments `123456789`, `--with-password` and the stdin `x`. -/
theorem applyToCmd_spec (path : String) (a : List String) (stdin : Option String)
    (out : Bool) (o : AnydeskConnectOptions) (env : Env) (adPath : String)
    (hpath : adPath ≠ "") :
    (o.applyToCmd { Path := path, Args := some a, Stdin := stdin, Stdout := out }).Args
      = some (a ++ optionFlags o)
    ∧ (o.applyToCmd { Path := path, Args := none, Stdin := stdin, Stdout := out }).Args
      = some (optionFlags o)
    ∧ (o.applyToCmd { Path := path, Args := some a, Stdin := stdin, Stdout := out }).Stdin
      = (if o.Password ≠ "" then some o.Password else stdin)
    ∧ optionFlags o
      = ([("--with-password", decide (o.Password ≠ "")), ("--fullscreen", o.Fullscreen),
          ("--file-transfer", o.FileTransfer), ("--plain", o.Plain)].filter
            (fun f => f.2)).map (fun f => f.1)
    ∧ ({ Password := "", Fullscreen := false, FileTransfer := false, Plain := false }
          : AnydeskConnectOptions).applyToCmd
        { Path := path, Args := some a, Stdin := stdin, Stdout := out }
      = { Path := path, Args := some a, Stdin := stdin, Stdout := out }
    ∧ (NewAnydeskCommandLineInterface adPath).ConnectCmd env "123456789"
        (some { Password := "x", Fullscreen := false, FileTransfer := false, Plain := false })
      = .ok { Path := adPath, Args := some [adPath, "123456789", "--with-password"],
              Stdin := some "x", Stdout := false } := by
  refine ⟨?_, ?_, ?_, ?_, ?_, ?_⟩
  · simpa using (applyToCmd_fields ⟨path, some a, stdin, out⟩ o).1
  · simpa using (applyToCmd_fields ⟨path, none, stdin, out⟩ o).1
  · simpa using (applyToCmd_fields ⟨path, some a, stdin, out⟩ o).2.1
  · obtain ⟨pw, fs, ft, pl⟩ := o
    by_cases h1 : pw = "" <;> cases fs <;> cases ft <;> cases pl <;> simp [optionFlags, h1]
  · simp [AnydeskConnectOptions.applyToCmd]
  · have hlen : adPath.length > 0 := (length_pos_iff_ne_empty adPath).mpr hpath
    have hx : ¬ "x".length = 0 := by decide
    simp [AnydeskCommandLineInterface.ConnectCmd, AnydeskCommandLineInterface.cmd,
      NewAnydeskCommandLineInterface, hlen, execCommand, AnydeskConnectOptions.applyToCmd,
      goAppend, hx]

theorem applyToCmd_spec_witness :
    ("/usr/bin/anydesk" ≠ "")
    ∧ (NewAnydeskCommandLineInterface "/usr/bin/anydesk").ConnectCmd (mockEnv 0 "") "123456789"
        (some { Password := "x", Fullscreen := false, FileTransfer := false, Plain := false })
      = .ok { Path := "/usr/bin/anydesk",
              Args := some ["/usr/bin/anydesk", "123456789", "--with-password"],
              Stdin := some "x", Stdout := false }
    ∧ (({ Password := "x", Fullscreen := true, FileTransfer := false, Plain := true }
          : AnydeskConnectOptions).applyToCmd
        { Path := "p", Args := some ["p", "r"], Stdin := none, Stdout := false }).Args
      = some (["p", "r"] ++ ["--with-password", "--fullscreen", "--plain"]) :=
  ⟨by decide,
   (applyToCmd_spec "p" ["p", "r"] none false
      { Password := "x", Fullscreen := true, FileTransfer := false, Plain := true }
      (mockEnv 0 "") "/usr/bin/anydesk" (by decide)).2.2.2.2.2,
   (applyToCmd_spec "p" ["p", "r"] none false
      { Password := "x", Fullscreen := true, FileTransfer := false, Plain := true }
      (mockEnv 0 "") "/usr/bin/anydesk" (by decide)).1⟩

/-! ## The information queries -/

theorem runCmd_stdout (cli : AnydeskCommandLineInterface) (env : Env) (args : List String)
    (c : Cmd) (hc : cli.runCmd env args = .ok c) : c.Stdout = true ∧ c.Stdin = none := by
  unfold AnydeskCommandLineInterface.runCmd at hc
  cases hcmd : cli.cmd env args with
  | error e => rw [hcmd] at hc; cases hc
  | ok c0 =>
    rw [hcmd] at hc
    simp only [Except.ok.injEq] at hc
    subst hc
    exact ⟨rfl, rfl⟩

/-- The result of `run` for a process that is launched and ends with an exit
code. -/
theorem run_exited (cli : AnydeskCommandLineInterface) (env : Env) (args : List String)
    (c : Cmd) (code : Int) (s : String)
    (hc : cli.runCmd env args = .ok c) (hp : env.proc c = .exited code s) :
    cli.run env args
      = (s, if code = 0 then none else some ((convertError code).getD (GoError.exitError code)))
    := by
  have hout := (runCmd_stdout cli env args c hc).1
  unfold AnydeskCommandLineInterface.run
  rw [hc]
  simp only [Run, hp, hout, if_true]
  by_cases h0 : code = 0
  · simp [h0]
  · simp only [h0, if_false]
    cases hconv : convertError code <;> simp

theorem GetAlias_eq (cli : AnydeskCommandLineInterface) (env : Env) :
    cli.GetAlias env = queryResult (cli.run env ["--get-alias"]) := by
  unfold AnydeskCommandLineInterface.GetAlias queryResult
  rfl

theorem GetID_eq (cli : AnydeskCommandLineInterface) (env : Env) :
    cli.GetID env = queryResult (cli.run env ["--get-id"]) := by
  unfold AnydeskCommandLineInterface.GetID queryResult
  rfl

theorem GetStatus_eq (cli : AnydeskCommandLineInterface) (env : Env) :
    cli.GetStatus env = queryResult (cli.run env ["--get-status"]) := by
  unfold AnydeskCommandLineInterface.GetStatus queryResult
  rfl

theorem Version_eq (cli : AnydeskCommandLineInterface) (env : Env) :
    cli.Version env = queryResult (cli.run env ["--version"]) := by
  unfold AnydeskCommandLineInterface.Version queryResult
  rfl

theorem queryResult_exited (code : Int) (s : String) :
    queryResult
        (s, if code = 0 then none else some ((convertError code).getD (GoError.exitError code)))
      = if code = 0 then (TrimSpace s, none)
        else ("", some (if TrimSpace s = "SERVICE_NOT_RUNNING" then ErrServiceNotRunning
                        else (convertError code).getD (GoError.exitError code))) := by
  by_cases h0 : code = 0
  · simp [queryResult, h0]
  · simp only [queryResult, h0, if_false, convertInfoError_buffer]
    by_cases hs : TrimSpace s = "SERVICE_NOT_RUNNING" <;> simp [hs]

/-! ## C4: a successful information query -/

/-- The result of an information query whose own process is launched and
ends with exit code 0. -/
theorem queryResult_success (cli : AnydeskCommandLineInterface) (env : Env) (flag : String)
    (c : Cmd) (s : String)
    (hc : cli.runCmd env [flag] = .ok c) (hp : env.proc c = .exited 0 s) :
    queryResult (cli.run env [flag]) = (TrimSpace s, none) := by
  rw [run_exited cli env [flag] c 0 s hc hp, queryResult_exited]
  simp

/-- C4. For each of `GetAlias`, `GetID`, `GetStatus` and `Version` on its
own: when the process of the operation is launched and ends with exit code 0
having written `s`, the operation returns no error and the trimmed `s`; this
is so for every `s`, also one whose trimmed form is `SERVICE_NOT_RUNNING`,
the sentinel check not being reached. For every `s`, the trimmed `s` is `s`
without white space at its two ends: `s` is white space, then the trimmed
`s`, then white space, and the trimmed `s` neither starts nor ends with white
space. -/
theorem infoQuery_success (cli : AnydeskCommandLineInterface) (env : Env) :
    (∀ c s, cli.runCmd env ["--get-alias"] = .ok c → env.proc c = .exited 0 s →
      cli.GetAlias env = (TrimSpace s, none))
    ∧ (∀ c s, cli.runCmd env ["--get-id"] = .ok c → env.proc c = .exited 0 s →
      cli.GetID env = (TrimSpace s, none))
    ∧ (∀ c s, cli.runCmd env ["--get-status"] = .ok c → env.proc c = .exited 0 s →
      cli.GetStatus env = (TrimSpace s, none))
    ∧ (∀ c s, cli.runCmd env ["--version"] = .ok c → env.proc c = .exited 0 s →
      cli.Version env = (TrimSpace s, none))
    ∧ (∀ s : String, ∃ pre post : String,
        allSpace pre ∧ allSpace post ∧ s = pre ++ TrimSpace s ++ post)
    ∧ (∀ (s : String) (a : Char), (TrimSpace s).data.head? = some a → IsSpace a = false)
    ∧ (∀ (s : String) (a : Char), (TrimSpace s).data.getLast? = some a → IsSpace a = false)
    ∧ mockCli.GetAlias (mockEnv 0 "SERVICE_NOT_RUNNING\n") = ("SERVICE_NOT_RUNNING", none)
    ∧ mockCli.GetID (mockEnv 0 "SERVICE_NOT_RUNNING\n") = ("SERVICE_NOT_RUNNING", none)
    ∧ mockCli.GetStatus (mockEnv 0 "SERVICE_NOT_RUNNING\n") = ("SERVICE_NOT_RUNNING", none)
    ∧ mockCli.Version (mockEnv 0 "SERVICE_NOT_RUNNING\n") = ("SERVICE_NOT_RUNNING", none) := by
  refine ⟨?_, ?_, ?_, ?_, ?_, ?_, ?_, by decide, by decide, by decide, by decide⟩
  · intro c s hc hp
    rw [GetAlias_eq]; exact queryResult_success cli env _ c s hc hp
  · intro c s hc hp
    rw [GetID_eq]; exact queryResult_success cli env _ c s hc hp
  · intro c s hc hp
    rw [GetStatus_eq]; exact queryResult_success cli env _ c s hc hp
  · intro c s hc hp
    rw [Version_eq]; exact queryResult_success cli env _ c s hc hp
  · intro s
    obtain ⟨pre, post, hpre, hpost, hs⟩ := trimList_decomp s.data
    refine ⟨⟨pre⟩, ⟨post⟩, hpre, hpost, ?_⟩
    apply String.ext
    simp only [String.data_append, TrimSpace_data]
    exact hs
  · intro s a ha
    rw [TrimSpace_data] at ha
    have hne : trimList s.data ≠ [] := by
      intro h0; rw [h0] at ha; cases ha
    have := (trimList_ends s.data).1 hne
    rw [List.head?_eq_head hne] at ha
    simp only [Option.some.injEq] at ha
    rw [← ha]; exact this
  · intro s a ha
    rw [TrimSpace_data] at ha
    have hne : trimList s.data ≠ [] := by
      intro h0; rw [h0] at ha; cases ha
    have := (trimList_ends s.data).2 hne
    rw [List.getLast?_eq_getLast _ hne] at ha
    simp only [Option.some.injEq] at ha
    rw [← ha]; exact this

theorem infoQuery_success_witness :
    mockCli.GetAlias
        (scriptedEnv [("--get-alias", 0, "  my alias@ad \n"), ("--get-id", 0, "123 456 789\n"),
          ("--get-status", 0, "online\n"), ("--version", 1, "")])
      = ("my alias@ad", none)
    ∧ mockCli.GetID
        (scriptedEnv [("--get-alias", 0, "  my alias@ad \n"), ("--get-id", 0, "123 456 789\n"),
          ("--get-status", 0, "online\n"), ("--version", 1, "")])
      = ("123 456 789", none)
    ∧ mockCli.GetStatus
        (scriptedEnv [("--get-alias", 0, "  my alias@ad \n"), ("--get-id", 0, "123 456 789\n"),
          ("--get-status", 0, "online\n"), ("--version", 1, "")])
      = ("online", none)
    ∧ mockCli.Version (scriptedEnv [("--get-alias", 7, "no"), ("--version", 0, "\t6.3.2\r\n")])
      = ("6.3.2", none) :=
  ⟨(infoQuery_success mockCli
      (scriptedEnv [("--get-alias", 0, "  my alias@ad \n"), ("--get-id", 0, "123 456 789\n"),
        ("--get-status", 0, "online\n"), ("--version", 1, "")])).1 _ _ rfl rfl,
   (infoQuery_success mockCli
      (scriptedEnv [("--get-alias", 0, "  my alias@ad \n"), ("--get-id", 0, "123 456 789\n"),
        ("--get-status", 0, "online\n"), ("--version", 1, "")])).2.1 _ _ rfl rfl,
   (infoQuery_success mockCli
      (scriptedEnv [("--get-alias", 0, "  my alias@ad \n"), ("--get-id", 0, "123 456 789\n"),
        ("--get-status", 0, "online\n"), ("--version", 1, "")])).2.2.1 _ _ rfl rfl,
   (infoQuery_success mockCli
      (scriptedEnv [("--get-alias", 7, "no"), ("--version", 0, "\t6.3.2\r\n")])).2.2.2.1
      _ _ rfl rfl⟩

theorem tableCodes_ne_zero (code : Int) (h : code ∈ tableCodes) : code ≠ 0 := by
  rintro rfl
  revert h
  decide

/-- The result of an information query whose process is launched and ends
with a code other than 0. -/
theorem queryResult_failed (cli : AnydeskCommandLineInterface) (env : Env) (flag : String)
    (c : Cmd) (code : Int) (s : String)
    (hc : cli.runCmd env [flag] = .ok c) (hp : env.proc c = .exited code s)
    (h0 : code ≠ 0) :
    queryResult (cli.run env [flag])
      = ("", some (if TrimSpace s = "SERVICE_NOT_RUNNING" then ErrServiceNotRunning
                   else (convertError code).getD (GoError.exitError code))) := by
  rw [run_exited cli env [flag] c code s hc hp, queryResult_exited, if_neg h0]

/-- The result of an information query whose process ends with a code that
is not 0 and not in the exit code table. -/
theorem queryResult_unlisted (cli : AnydeskCommandLineInterface) (env : Env) (flag : String)
    (c : Cmd) (code : Int) (s : String)
    (hc : cli.runCmd env [flag] = .ok c) (hp : env.proc c = .exited code s)
    (h0 : code ≠ 0) (hcode : code ∉ tableCodes) :
    queryResult (cli.run env [flag])
      = ("", some (if TrimSpace s = "SERVICE_NOT_RUNNING" then ErrServiceNotRunning
                   else GoError.exitError code)) := by
  rw [queryResult_failed cli env flag c code s hc hp h0, convertError_of_not_mem code hcode]
  rfl

/-- The result of an information query whose process ends with a code of the
exit code table. -/
theorem queryResult_listed (cli : AnydeskCommandLineInterface) (env : Env) (flag : String)
    (c : Cmd) (code : Int) (s : String)
    (hc : cli.runCmd env [flag] = .ok c) (hp : env.proc c = .exited code s)
    (hcode : code ∈ tableCodes) :
    ∃ msg : String, convertError code = some (errorsNew msg)
      ∧ queryResult (cli.run env [flag])
        = ("", some (if TrimSpace s = "SERVICE_NOT_RUNNING" then ErrServiceNotRunning
                     else errorsNew msg)) := by
  obtain ⟨msg, hmsg⟩ := convertError_of_mem code hcode
  refine ⟨msg, hmsg, ?_⟩
  rw [queryResult_failed cli env flag c code s hc hp (tableCodes_ne_zero code hcode), hmsg]
  rfl

/-! ## C5: a failed information query with a code outside the table -/

/-- C5. For each of `GetAlias`, `GetID`, `GetStatus` and `Version` on its
own: when the process of the operation ends with a code that is not 0 and not
in the exit code table, the operation returns the empty string together with
`ErrServiceNotRunning` if the trimmed stdout is `SERVICE_NOT_RUNNING`, and
with the failure of the process carrying the exit code otherwise. So
`GetStatus` on exit 1 with stdout `SERVICE_NOT_RUNNING\n` returns
`ErrServiceNotRunning`, and on exit 1 with empty stdout the failure with
code 1. -/
theorem infoQuery_unlisted_code (cli : AnydeskCommandLineInterface) (env : Env) :
    (∀ c code s, cli.runCmd env ["--get-alias"] = .ok c → env.proc c = .exited code s →
      code ≠ 0 → code ∉ tableCodes →
      cli.GetAlias env
        = ("", some (if TrimSpace s = "SERVICE_NOT_RUNNING" then ErrServiceNotRunning
                     else GoError.exitError code)))
    ∧ (∀ c code s, cli.runCmd env ["--get-id"] = .ok c → env.proc c = .exited code s →
      code ≠ 0 → code ∉ tableCodes →
      cli.GetID env
        = ("", some (if TrimSpace s = "SERVICE_NOT_RUNNING" then ErrServiceNotRunning
                     else GoError.exitError code)))
    ∧ (∀ c code s, cli.runCmd env ["--get-status"] = .ok c → env.proc c = .exited code s →
      code ≠ 0 → code ∉ tableCodes →
      cli.GetStatus env
        = ("", some (if TrimSpace s = "SERVICE_NOT_RUNNING" then ErrServiceNotRunning
                     else GoError.exitError code)))
    ∧ (∀ c code s, cli.runCmd env ["--version"] = .ok c → env.proc c = .exited code s →
      code ≠ 0 → code ∉ tableCodes →
      cli.Version env
        = ("", some (if TrimSpace s = "SERVICE_NOT_RUNNING" then ErrServiceNotRunning
                     else GoError.exitError code)))
    ∧ mockCli.GetStatus (mockEnv 1 "SERVICE_NOT_RUNNING\n") = ("", some ErrServiceNotRunning)
    ∧ mockCli.GetStatus (mockEnv 1 "") = ("", some (GoError.exitError 1)) := by
  refine ⟨?_, ?_, ?_, ?_, by decide, by decide⟩
  · intro c code s hc hp h0 hcode
    rw [GetAlias_eq]; exact queryResult_unlisted cli env _ c code s hc hp h0 hcode
  · intro c code s hc hp h0 hcode
    rw [GetID_eq]; exact queryResult_unlisted cli env _ c code s hc hp h0 hcode
  · intro c code s hc hp h0 hcode
    rw [GetStatus_eq]; exact queryResult_unlisted cli env _ c code s hc hp h0 hcode
  · intro c code s hc hp h0 hcode
    rw [Version_eq]; exact queryResult_unlisted cli env _ c code s hc hp h0 hcode

theorem infoQuery_unlisted_code_witness :
    mockCli.GetAlias
        (scriptedEnv [("--get-alias", 3, "oops\n"), ("--get-id", 0, "123456789\n"),
          ("--get-status", 1, "SERVICE_NOT_RUNNING\n"), ("--version", 255, " ")])
      = ("", some (GoError.exitError 3))
    ∧ mockCli.GetStatus
        (scriptedEnv [("--get-alias", 3, "oops\n"), ("--get-id", 0, "123456789\n"),
          ("--get-status", 1, "SERVICE_NOT_RUNNING\n"), ("--version", 255, " ")])
      = ("", some ErrServiceNotRunning)
    ∧ mockCli.Version
        (scriptedEnv [("--get-alias", 3, "oops\n"), ("--get-id", 0, "123456789\n"),
          ("--get-status", 1, "SERVICE_NOT_RUNNING\n"), ("--version", 255, " ")])
      = ("", some (GoError.exitError 255))
    ∧ mockCli.GetID (scriptedEnv [("--get-id", -1, "")]) = ("", some (GoError.exitError (-1)))
    ∧ mockCli.GetStatus (mockEnv 1 "") = ("", some (GoError.exitError 1)) :=
  ⟨(infoQuery_unlisted_code mockCli
      (scriptedEnv [("--get-alias", 3, "oops\n"), ("--get-id", 0, "123456789\n"),
        ("--get-status", 1, "SERVICE_NOT_RUNNING\n"), ("--version", 255, " ")])).1
      _ 3 "oops\n" rfl rfl (by decide) (by decide),
   (infoQuery_unlisted_code mockCli
      (scriptedEnv [("--get-alias", 3, "oops\n"), ("--get-id", 0, "123456789\n"),
        ("--get-status", 1, "SERVICE_NOT_RUNNING\n"), ("--version", 255, " ")])).2.2.1
      _ 1 "SERVICE_NOT_RUNNING\n" rfl rfl (by decide) (by decide),
   (infoQuery_unlisted_code mockCli
      (scriptedEnv [("--get-alias", 3, "oops\n"), ("--get-id", 0, "123456789\n"),
        ("--get-status", 1, "SERVICE_NOT_RUNNING\n"), ("--version", 255, " ")])).2.2.2.1
      _ 255 " " rfl rfl (by decide) (by decide),
   (infoQuery_unlisted_code mockCli (scriptedEnv [("--get-id", -1, "")])).2.1
      _ (-1) "" rfl rfl (by decide) (by decide),
   (infoQuery_unlisted_code mockCli (mockEnv 1 "")).2.2.1 _ 1 "" rfl rfl (by decide)
      (by decide)⟩

/-! ## C6: a failed information query with a code of the table -/

/-- C6, as stated, fails: with exit code 9010, a code of the table, and the
stdout `SERVICE_NOT_RUNNING\n`, each of the four queries returns
`ErrServiceNotRunning` and not the description of 9010. -/
theorem infoQuery_table_code_counterexample :
    (9010 : Int) ∈ tableCodes
    ∧ convertError 9010
      = some (errorsNew
          "Could not perform the requested operation because the AnyDesk service was not running.")
    ∧ mockCli.GetAlias (mockEnv 9010 "SERVICE_NOT_RUNNING\n") = ("", some ErrServiceNotRunning)
    ∧ mockCli.GetID (mockEnv 9010 "SERVICE_NOT_RUNNING\n") = ("", some ErrServiceNotRunning)
    ∧ mockCli.GetStatus (mockEnv 9010 "SERVICE_NOT_RUNNING\n") = ("", some ErrServiceNotRunning)
    ∧ mockCli.Version (mockEnv 9010 "SERVICE_NOT_RUNNING\n") = ("", some ErrServiceNotRunning)
    ∧ (mockCli.GetAlias (mockEnv 9010 "SERVICE_NOT_RUNNING\n")).2 ≠ convertError 9010 := by
  decide

/-- C6, amended. For each of `GetAlias`, `GetID`, `GetStatus` and `Version`
on its own: when the process of the operation ends with a code of the exit
code table, the sentinel check is applied all the same, and the operation
returns the empty string together with `ErrServiceNotRunning` if the trimmed
stdout is `SERVICE_NOT_RUNNING`, and with the description of the code in the
table otherwise. -/
theorem infoQuery_table_code (cli : AnydeskCommandLineInterface) (env : Env) :
    (∀ c code s, cli.runCmd env ["--get-alias"] = .ok c → env.proc c = .exited code s →
      code ∈ tableCodes →
      ∃ msg : String, convertError code = some (errorsNew msg)
        ∧ cli.GetAlias env
          = ("", some (if TrimSpace s = "SERVICE_NOT_RUNNING" then ErrServiceNotRunning
                       else errorsNew msg)))
    ∧ (∀ c code s, cli.runCmd env ["--get-id"] = .ok c → env.proc c = .exited code s →
      code ∈ tableCodes →
      ∃ msg : String, convertError code = some (errorsNew msg)
        ∧ cli.GetID env
          = ("", some (if TrimSpace s = "SERVICE_NOT_RUNNING" then ErrServiceNotRunning
                       else errorsNew msg)))
    ∧ (∀ c code s, cli.runCmd env ["--get-status"] = .ok c → env.proc c = .exited code s →
      code ∈ tableCodes →
      ∃ msg : String, convertError code = some (errorsNew msg)
        ∧ cli.GetStatus env
          = ("", some (if TrimSpace s = "SERVICE_NOT_RUNNING" then ErrServiceNotRunning
                       else errorsNew msg)))
    ∧ (∀ c code s, cli.runCmd env ["--version"] = .ok c → env.proc c = .exited code s →
      code ∈ tableCodes →
      ∃ msg : String, convertError code = some (errorsNew msg)
        ∧ cli.Version env
          = ("", some (if TrimSpace s = "SERVICE_NOT_RUNNING" then ErrServiceNotRunning
                       else errorsNew msg))) := by
  refine ⟨?_, ?_, ?_, ?_⟩
  · intro c code s hc hp hcode
    rw [GetAlias_eq]; exact queryResult_listed cli env _ c code s hc hp hcode
  · intro c code s hc hp hcode
    rw [GetID_eq]; exact queryResult_listed cli env _ c code s hc hp hcode
  · intro c code s hc hp hcode
    rw [GetStatus_eq]; exact queryResult_listed cli env _ c code s hc hp hcode
  · intro c code s hc hp hcode
    rw [Version_eq]; exact queryResult_listed cli env _ c code s hc hp hcode

theorem infoQuery_table_code_witness :
    (∃ msg : String, convertError 9006 = some (errorsNew msg)
      ∧ mockCli.GetAlias
          (scriptedEnv [("--get-alias", 9006, "no"), ("--get-id", 0, "123456789\n"),
            ("--get-status", 9010, " SERVICE_NOT_RUNNING\n"), ("--version", 7002, "")])
        = ("", some (errorsNew msg)))
    ∧ (∃ msg : String, convertError 9010 = some (errorsNew msg)
      ∧ mockCli.GetStatus
          (scriptedEnv [("--get-alias", 9006, "no"), ("--get-id", 0, "123456789\n"),
            ("--get-status", 9010, " SERVICE_NOT_RUNNING\n"), ("--version", 7002, "")])
        = ("", some ErrServiceNotRunning))
    ∧ (∃ msg : String, convertError 7002 = some (errorsNew msg)
      ∧ mockCli.Version
          (scriptedEnv [("--get-alias", 9006, "no"), ("--get-id", 0, "123456789\n"),
            ("--get-status", 9010, " SERVICE_NOT_RUNNING\n"), ("--version", 7002, "")])
        = ("", some (errorsNew msg))) :=
  ⟨(infoQuery_table_code mockCli
      (scriptedEnv [("--get-alias", 9006, "no"), ("--get-id", 0, "123456789\n"),
        ("--get-status", 9010, " SERVICE_NOT_RUNNING\n"), ("--version", 7002, "")])).1
      _ 9006 "no" rfl rfl (by decide),
   (infoQuery_table_code mockCli
      (scriptedEnv [("--get-alias", 9006, "no"), ("--get-id", 0, "123456789\n"),
        ("--get-status", 9010, " SERVICE_NOT_RUNNING\n"), ("--version", 7002, "")])).2.2.1
      _ 9010 " SERVICE_NOT_RUNNING\n" rfl rfl (by decide),
   (infoQuery_table_code mockCli
      (scriptedEnv [("--get-alias", 9006, "no"), ("--get-id", 0, "123456789\n"),
        ("--get-status", 9010, " SERVICE_NOT_RUNNING\n"), ("--version", 7002, "")])).2.2.2
      _ 7002 "" rfl rfl (by decide)⟩

/-! ## C7: setting the password -/

/-- The command built by `cmd`: the program path, then the arguments given,
no stdin, output not captured. -/
theorem cmd_shape (cli : AnydeskCommandLineInterface) (env : Env) (args : List String)
    (c : Cmd) (hc : cli.cmd env args = .ok c) :
    c = { Path := c.Path, Args := some (c.Path :: args), Stdin := none, Stdout := false } := by
  unfold AnydeskCommandLineInterface.cmd at hc
  split_ifs at hc with hlen
  · simp only [Except.ok.injEq] at hc
    subst hc
    rfl
  · split at hc
    · cases hc
    · simp only [Except.ok.injEq] at hc
      subst hc
      rfl

theorem SetPassword_run (cli : AnydeskCommandLineInterface) (env : Env) (pw : String)
    (c : Cmd) (hc : cli.SetPasswordCmd env pw = .ok c) :
    cli.SetPassword env pw
      = match env.proc c with
        | .startFailed => some (GoError.startError c.Path)
        | .exited code _ =>
          if code = 0 then none else some ((convertError code).getD (GoError.exitError code))
    := by
  unfold AnydeskCommandLineInterface.SetPassword
  rw [hc]
  simp only [Run]
  cases hp : env.proc c with
  | startFailed => simp [convertError_of_not_mem (-1) (by decide)]
  | exited code out =>
    by_cases h0 : code = 0
    · simp [h0]
    · simp only [h0, if_false]
      cases hconv : convertError code <;> simp

/-- C7. `SetPassword` runs the binary with the single argument
`--set-password` and the password as stdin, and for the outcome of that
process: exit code 0 gives no error; a code of the exit code table gives the
error with exactly the description of the code in the table (9006 gives
"The password to be set is too short."); any other code that is not 0 gives
the failure of the process carrying the code. -/
theorem SetPassword_spec (cli : AnydeskCommandLineInterface) (env : Env) (pw : String)
    (c : Cmd) (hc : cli.cmd env ["--set-password"] = .ok c) :
    cli.SetPasswordCmd env pw
      = .ok { Path := c.Path, Args := some [c.Path, "--set-password"], Stdin := some pw,
              Stdout := false }
    ∧ (∀ out, env.proc { Path := c.Path, Args := some [c.Path, "--set-password"],
                         Stdin := some pw, Stdout := false } = .exited 0 out →
        cli.SetPassword env pw = none)
    ∧ (∀ code out, env.proc { Path := c.Path, Args := some [c.Path, "--set-password"],
                              Stdin := some pw, Stdout := false } = .exited code out →
        code ∈ tableCodes →
        ∃ msg, convertError code = some (errorsNew msg)
          ∧ cli.SetPassword env pw = some (errorsNew msg))
    ∧ (∀ code out, env.proc { Path := c.Path, Args := some [c.Path, "--set-password"],
                              Stdin := some pw, Stdout := false } = .exited code out →
        code ≠ 0 → code ∉ tableCodes →
        cli.SetPassword env pw = some (GoError.exitError code))
    ∧ mockCli.SetPassword (mockEnv 9006 "") pw
      = some (errorsNew "The password to be set is too short.") := by
  have hcmd : cli.SetPasswordCmd env pw
      = .ok { Path := c.Path, Args := some [c.Path, "--set-password"], Stdin := some pw,
              Stdout := false } := by
    unfold AnydeskCommandLineInterface.SetPasswordCmd
    rw [hc, cmd_shape cli env _ c hc]
  have hrun := SetPassword_run cli env pw _ hcmd
  refine ⟨hcmd, ?_, ?_, ?_, ?_⟩
  · intro out hp
    rw [hrun, hp]
    simp
  · intro code out hp hmem
    obtain ⟨msg, hmsg⟩ := convertError_of_mem code hmem
    refine ⟨msg, hmsg, ?_⟩
    rw [hrun, hp]
    simp [tableCodes_ne_zero code hmem, hmsg]
  · intro code out hp h0 hnot
    rw [hrun, hp]
    simp [h0, convertError_of_not_mem code hnot]
  · rfl

theorem SetPassword_spec_witness :
    mockCli.SetPasswordCmd (mockEnv 9006 "") "abc"
      = .ok { Path := "/usr/bin/anydesk", Args := some ["/usr/bin/anydesk", "--set-password"],
              Stdin := some "abc", Stdout := false }
    ∧ mockCli.SetPassword (mockEnv 9006 "") "abc"
      = some (errorsNew "The password to be set is too short.")
    ∧ mockCli.SetPassword (mockEnv 0 "") "abc" = none
    ∧ mockCli.SetPassword (mockEnv 3 "") "abc" = some (GoError.exitError 3) :=
  ⟨(SetPassword_spec mockCli (mockEnv 9006 "") "abc" _ rfl).1,
   (SetPassword_spec mockCli (mockEnv 9006 "") "abc" _ rfl).2.2.2.2,
   (SetPassword_spec mockCli (mockEnv 0 "") "abc" _ rfl).2.1 "" rfl,
   (SetPassword_spec mockCli (mockEnv 3 "") "abc" _ rfl).2.2.2.1 3 "" rfl (by decide)
     (by decide)⟩

/-! ## C8: the binary locator -/

theorem LookPath_of_slash (env : Env) (file : String) (h : containsSlash file = true) :
    LookPath env file
      = if env.isExecutable file then (file, none)
        else ("", some (GoError.exec file ExecErrKind.notExecutable)) := by
  unfold LookPath
  rw [if_pos h]

theorem lookPathLoop_executable (env : Env) (file : String) (dirs : List String) (p : String)
    (h : lookPathLoop env file dirs = (p, none)) : env.isExecutable p = true := by
  induction dirs with
  | nil => simp [lookPathLoop] at h
  | cons d ds ih =>
    simp only [lookPathLoop] at h
    generalize (if d = "" then "." else d) = d' at h
    split_ifs at h with hx hdot
    · simp at h
    · simp only [Prod.mk.injEq, and_true] at h
      rw [← h]; exact hx
    · exact ih h

theorem LookPath_executable (env : Env) (file p : String)
    (h : LookPath env file = (p, none)) : env.isExecutable p = true := by
  unfold LookPath at h
  split_ifs at h with hs hx
  · simp only [Prod.mk.injEq, and_true] at h
    rw [← h]; exact hx
  · simp at h
  · exact lookPathLoop_executable env file _ p h

/-- The loop of `findAnyDesk` ends with an executable file and no error, or
with the not-found error naming the binary. -/
theorem findAnyDeskLoop_result (env : Env) (dirs : List String) :
    (∃ p, findAnyDeskLoop env dirs = (p, none) ∧ env.isExecutable p = true)
    ∨ findAnyDeskLoop env dirs = (env.anydeskBinaryName, some (notFoundError env)) := by
  induction dirs with
  | nil => exact Or.inr rfl
  | cons d ds ih =>
    simp only [findAnyDeskLoop]
    split
    · next p hp => exact Or.inl ⟨p, rfl, LookPath_executable env _ p hp⟩
    · exact ih

/-- On directories whose candidates all contain a slash, the loop of
`findAnyDesk` returns the first candidate that is an executable file. -/
theorem findAnyDeskLoop_of_slash (env : Env) (dirs : List String)
    (h : ∀ d ∈ dirs, containsSlash (candidate env d) = true) :
    findAnyDeskLoop env dirs
      = match (dirs.map (candidate env)).find? env.isExecutable with
        | some p => (p, none)
        | none => (env.anydeskBinaryName, some (notFoundError env)) := by
  induction dirs with
  | nil => rfl
  | cons d ds ih =>
    have hd : containsSlash (candidate env d) = true := h d (List.mem_cons_self d ds)
    have hds : ∀ d' ∈ ds, containsSlash (candidate env d') = true :=
      fun d' hd' => h d' (List.mem_cons_of_mem d hd')
    unfold candidate at hd
    simp only [findAnyDeskLoop, List.map_cons, List.find?_cons]
    rw [LookPath_of_slash env _ hd]
    by_cases hx : env.isExecutable (Join (if d = "" then "." else d) env.anydeskBinaryName) = true
    · simp [candidate, hx]
    · simp only [Bool.not_eq_true] at hx
      simp only [candidate, hx, Bool.false_eq_true, if_false]
      exact ih hds

/-- On directories whose candidates all contain a path separator,
`findAnyDesk` returns the first candidate, search path entries before install
directories, that is an executable file, and the not-found error when there
is none. -/
theorem findAnyDesk_of_slash (env : Env)
    (h : ∀ d ∈ searchDirs env, containsSlash (candidate env d) = true) :
    findAnyDesk env
      = match firstExecutable env with
        | some p => (p, none)
        | none => (env.anydeskBinaryName, some (notFoundError env)) :=
  findAnyDeskLoop_of_slash env _ h

/-- For all directories, an error of `findAnyDesk` is the not-found error
naming the binary, and a result without error is an executable file. -/
theorem findAnyDesk_error_kind (env : Env) :
    (∀ e, (findAnyDesk env).2 = some e →
      e = GoError.exec env.anydeskBinaryName ExecErrKind.notFound)
    ∧ (∀ p, findAnyDesk env = (p, none) → env.isExecutable p = true) := by
  refine ⟨?_, ?_⟩
  · intro e he
    unfold findAnyDesk at he
    rcases findAnyDeskLoop_result env (env.pathList ++ env.anydeskBinaryDirectoryPaths) with
      ⟨p, hp, _⟩ | hnf
    · rw [hp] at he; cases he
    · rw [hnf] at he
      simp only [Option.some.injEq] at he
      rw [← he]; rfl
  · intro p hp
    unfold findAnyDesk at hp
    rcases findAnyDeskLoop_result env (env.pathList ++ env.anydeskBinaryDirectoryPaths) with
      ⟨q, hq, hx⟩ | hnf
    · rw [hq] at hp
      simp only [Prod.mk.injEq, and_true] at hp
      rw [← hp]; exact hx
    · rw [hnf] at hp
      simp at hp

/-- C8. With the search path `/usr/bin:` (the entries `/usr/bin` and `""`),
no install directory, no `/usr/bin/anydesk` and an executable `anydesk` in
the current directory, the first directory whose candidate is an executable
file is the empty entry, with the candidate `anydesk`. `findAnyDesk` hands
that bare name to `exec.LookPath`, which searches for it along the search
path and, in the release that reports `exec.ErrDot`, refuses the match in the
current directory: `findAnyDesk` ends with the not-found error. The same
happens for the search path `:` with its two empty entries. -/
theorem findAnyDesk_bare_candidate :
    searchDirs (locatorEnv ["/usr/bin", ""] [] ["anydesk"] true) = ["/usr/bin", ""]
    ∧ candidate (locatorEnv ["/usr/bin", ""] [] ["anydesk"] true) "/usr/bin"
      = "/usr/bin/anydesk"
    ∧ (locatorEnv ["/usr/bin", ""] [] ["anydesk"] true).isExecutable "/usr/bin/anydesk" = false
    ∧ candidate (locatorEnv ["/usr/bin", ""] [] ["anydesk"] true) "" = "anydesk"
    ∧ (locatorEnv ["/usr/bin", ""] [] ["anydesk"] true).isExecutable "anydesk" = true
    ∧ firstExecutable (locatorEnv ["/usr/bin", ""] [] ["anydesk"] true) = some "anydesk"
    ∧ findAnyDesk (locatorEnv ["/usr/bin", ""] [] ["anydesk"] true)
      = ("anydesk", some (GoError.exec "anydesk" ExecErrKind.notFound))
    ∧ firstExecutable (locatorEnv ["", ""] [] ["anydesk"] true) = some "anydesk"
    ∧ findAnyDesk (locatorEnv ["", ""] [] ["anydesk"] true)
      = ("anydesk", some (GoError.exec "anydesk" ExecErrKind.notFound)) := by
  decide

/-! ## C9: the empty entry of the search path -/

/-- C9. For the empty entry the candidate is the bare name `anydesk`, and
`exec.LookPath` searches for a bare name along the search path instead of
testing the file in the current directory. With the search path
`["", "/opt/anydesk"]`, no `anydesk` in the current directory and an
executable `/opt/anydesk/anydesk`, the lookup made for the empty entry
succeeds, with the file of the other directory. With the search path `[""]`
and an executable `anydesk` in the current directory, the release of the
library that reports `exec.ErrDot` makes `findAnyDesk` end with the not-found
error; so it does for the search path `:`, whose two entries are empty. -/
theorem findAnyDesk_empty_entry (pathList installDirs executables : List String)
    (errDot : Bool) :
    candidate (locatorEnv pathList installDirs executables errDot) "" = "anydesk"
    ∧ containsSlash "anydesk" = false
    ∧ LookPath (locatorEnv pathList installDirs executables errDot)
        (candidate (locatorEnv pathList installDirs executables errDot) "")
      = lookPathLoop (locatorEnv pathList installDirs executables errDot) "anydesk" pathList
    ∧ (locatorEnv ["", "/opt/anydesk"] [] ["/opt/anydesk/anydesk"] errDot).isExecutable
        "anydesk" = false
    ∧ LookPath (locatorEnv ["", "/opt/anydesk"] [] ["/opt/anydesk/anydesk"] errDot)
        (candidate (locatorEnv ["", "/opt/anydesk"] [] ["/opt/anydesk/anydesk"] errDot) "")
      = ("/opt/anydesk/anydesk", none)
    ∧ (locatorEnv [""] [] ["anydesk"] true).isExecutable "anydesk" = true
    ∧ findAnyDesk (locatorEnv [""] [] ["anydesk"] true)
      = ("anydesk", some (GoError.exec "anydesk" ExecErrKind.notFound))
    ∧ LookPath (locatorEnv ["", ""] [] ["anydesk"] true)
        (candidate (locatorEnv ["", ""] [] ["anydesk"] true) "")
      = ("anydesk", some (GoError.exec "anydesk" ExecErrKind.dot))
    ∧ findAnyDesk (locatorEnv ["", ""] [] ["anydesk"] true)
      = ("anydesk", some (GoError.exec "anydesk" ExecErrKind.notFound)) := by
  refine ⟨rfl, rfl, rfl, rfl, ?_, rfl, by decide, by decide, by decide⟩
  cases errDot <;> decide

/-! ## C10: the keyword of a command -/

theorem fieldsAux_eq_nil (l cur : List Char) :
    fieldsAux cur l = [] ↔ cur = [] ∧ ∀ c ∈ l, IsSpace c = true := by
  induction l generalizing cur with
  | nil =>
    by_cases hcur : cur = [] <;> simp [fieldsAux, hcur]
  | cons a t ih =>
    by_cases ha : IsSpace a = true
    · by_cases hcur : cur = []
      · simp [fieldsAux, ha, hcur, ih]
      · simp [fieldsAux, ha, hcur]
    · simp only [fieldsAux, ha, Bool.false_eq_true, if_false, ih]
      simp [ha]

theorem Fields_eq_nil (s : String) : Fields s = [] ↔ allSpace s := by
  unfold Fields allSpace
  rw [List.map_eq_nil_iff, fieldsAux_eq_nil]
  simp

theorem ProcessCommand_ok (ToLower : String → String) (kw : String) (rest : List String)
    (command : String) (h : Fields command = kw :: rest) :
    ProcessCommand ToLower command = .ok (decide (ToLower kw ∈ handledKeywords)) := by
  unfold ProcessCommand
  simp only [h]
  split <;> simp_all [handledKeywords]

/-- C10. `ProcessCommand` takes `fields[0]` without a test of the length: on
the empty command and on a command of white space only there is no field and
the index is out of range, so the call panics and returns no flag. This
happens exactly for the commands made of white space only; every other
command has a first field, and the flag is true exactly when that field in
lower case is one of the five keywords. -/
theorem ProcessCommand_keyword (ToLower : String → String) (command : String) :
    ProcessCommand ToLower "" = .error (Panic.indexOutOfRange 0 0)
    ∧ ProcessCommand ToLower " \t\n" = .error (Panic.indexOutOfRange 0 0)
    ∧ (ProcessCommand ToLower command = .error (Panic.indexOutOfRange 0 0)
        ↔ allSpace command)
    ∧ (¬ allSpace command ↔
        ∃ kw rest, Fields command = kw :: rest
          ∧ ProcessCommand ToLower command = .ok (decide (ToLower kw ∈ handledKeywords))) := by
  have hnil : ∀ c, Fields c = [] → ProcessCommand ToLower c = .error (Panic.indexOutOfRange 0 0) := by
    intro c hc
    unfold ProcessCommand
    simp only [hc]
  refine ⟨hnil _ (by decide), hnil _ (by decide), ?_, ?_⟩
  · constructor
    · intro h
      rw [← Fields_eq_nil]
      cases hf : Fields command with
      | nil => rfl
      | cons kw rest =>
        rw [ProcessCommand_ok ToLower kw rest command hf] at h
        cases h
    · intro h
      exact hnil _ ((Fields_eq_nil command).mpr h)
  · constructor
    · intro h
      cases hf : Fields command with
      | nil => exact absurd ((Fields_eq_nil command).mp hf) h
      | cons kw rest => exact ⟨kw, rest, rfl, ProcessCommand_ok ToLower kw rest command hf⟩
    · rintro ⟨kw, rest, hf, _⟩ h
      rw [(Fields_eq_nil command).mpr h] at hf
      cases hf

end AnyDesk
